import Mathlib

/-!
Verification development for the BlindForth tokenizer (`src/tokenizer.cpp`).

The C++ source is embedded shallowly:

* the three enums (`TokenType`, `TokenState`, `TokenInput`) become inductive types;
* the global transition matrix `states` becomes a total function on the two enums,
  transcribed cell by cell **by row index** (note: the source initializer lists the row
  commented `TOKEN_STATE_DQUOTE_STRING` at index 6 and the row commented
  `TOKEN_STATE_SQUOTE_STRING` at index 7, while the enum declares
  `TOKEN_STATE_SQUOTE_STRING = 6` and `TOKEN_STATE_DQUOTE_STRING = 7`, so positionally
  the two string rows are attached to the opposite states from their comments; the
  embedding follows the indices, which is what the compiled program does);
* `get_input` becomes a function on `Int` (the C `int` value of the character; the
  claims only exercise ASCII, where `char`-signedness is immaterial);
* `tokenize` becomes structural recursion over the input list, threading the
  call-local variables (`curr_state`, `line_ending_check`, `col_pos`, `sign`)
  exactly as the C loop does.  The C loop never assigns `curr_state`, never calls
  `build_int`/`build_real`/`token_buffer_*`, and never pushes to `result.tokens`;
  the embedding reproduces this faithfully.
-/

namespace BlindForth

/-- Enum `TokenType` from the source (values 0..5). -/
inductive TokenType where
  | none_
  | int
  | real
  | str
  | id
  | debugCommand
  deriving DecidableEq, Repr

/-- Enum `TokenState` from the source (values 0..10, `TOKEN_STATE_SIZE` = 11). -/
inductive TokenState where
  | error
  | none_
  | sign
  | int
  | dot
  | real
  | squoteString
  | dquoteString
  | id
  | debug
  | end_
  deriving DecidableEq, Repr

/-- Enum `TokenInput` from the source (values 0..11, `TOKEN_INPUT_SIZE` = 12). -/
inductive TokenInput where
  | eof
  | whitespace
  | alphabet
  | numeric
  | dot
  | doublequote
  | singlequote
  | sign
  | colon
  | backslash
  | idchar
  | other
  deriving DecidableEq, Repr

/-- The transition matrix `states[TOKEN_STATE_SIZE][TOKEN_INPUT_SIZE]`, transcribed by
row index.  The initializer supplies ten rows (indices 0..9); the missing row for
`TOKEN_STATE_END` (index 10) is zero-initialized in C++, i.e. every cell is
`TOKEN_STATE_ERROR` (value 0).  Rows 6 and 7 carry the values written in the source
at those positions (see the header comment about the swapped string-row comments). -/
def states : TokenState → TokenInput → TokenState
  -- row 0: TOKEN_STATE_ERROR
  | .error, _ => .error
  -- row 1: TOKEN_STATE_NONE
  | .none_, .eof => .end_
  | .none_, .whitespace => .none_
  | .none_, .alphabet => .id
  | .none_, .numeric => .int
  | .none_, .dot => .dot
  | .none_, .doublequote => .dquoteString
  | .none_, .singlequote => .squoteString
  | .none_, .sign => .sign
  | .none_, .colon => .debug
  | .none_, .backslash => .error
  | .none_, .idchar => .id
  | .none_, .other => .error
  -- row 2: TOKEN_STATE_SIGN
  | .sign, .eof => .end_
  | .sign, .whitespace => .none_
  | .sign, .alphabet => .error
  | .sign, .numeric => .int
  | .sign, .dot => .dot
  | .sign, .doublequote => .error
  | .sign, .singlequote => .error
  | .sign, .sign => .error
  | .sign, .colon => .error
  | .sign, .backslash => .error
  | .sign, .idchar => .error
  | .sign, .other => .error
  -- row 3: TOKEN_STATE_INT
  | .int, .eof => .end_
  | .int, .whitespace => .none_
  | .int, .alphabet => .error
  | .int, .numeric => .int
  | .int, .dot => .dot
  | .int, .doublequote => .error
  | .int, .singlequote => .error
  | .int, .sign => .error
  | .int, .colon => .error
  | .int, .backslash => .error
  | .int, .idchar => .error
  | .int, .other => .error
  -- row 4: TOKEN_STATE_DOT
  | .dot, .eof => .error
  | .dot, .whitespace => .error
  | .dot, .alphabet => .error
  | .dot, .numeric => .real
  | .dot, .dot => .error
  | .dot, .doublequote => .error
  | .dot, .singlequote => .error
  | .dot, .sign => .error
  | .dot, .colon => .error
  | .dot, .backslash => .error
  | .dot, .idchar => .error
  | .dot, .other => .error
  -- row 5: TOKEN_STATE_REAL
  | .real, .eof => .end_
  | .real, .whitespace => .none_
  | .real, .alphabet => .error
  | .real, .numeric => .real
  | .real, .dot => .error
  | .real, .doublequote => .error
  | .real, .singlequote => .error
  | .real, .sign => .error
  | .real, .colon => .error
  | .real, .backslash => .error
  | .real, .idchar => .error
  | .real, .other => .error
  -- row 6: state TOKEN_STATE_SQUOTE_STRING (the initializer row at index 6,
  -- whose source comment says DQUOTE; its cell values name TOKEN_STATE_DQUOTE_STRING)
  | .squoteString, .eof => .error
  | .squoteString, .whitespace => .dquoteString
  | .squoteString, .alphabet => .dquoteString
  | .squoteString, .numeric => .dquoteString
  | .squoteString, .dot => .dquoteString
  | .squoteString, .doublequote => .none_
  | .squoteString, .singlequote => .dquoteString
  | .squoteString, .sign => .dquoteString
  | .squoteString, .colon => .dquoteString
  | .squoteString, .backslash => .dquoteString
  | .squoteString, .idchar => .dquoteString
  | .squoteString, .other => .dquoteString
  -- row 7: state TOKEN_STATE_DQUOTE_STRING (the initializer row at index 7,
  -- whose source comment says SQUOTE; its cell values name TOKEN_STATE_SQUOTE_STRING)
  | .dquoteString, .eof => .error
  | .dquoteString, .whitespace => .squoteString
  | .dquoteString, .alphabet => .squoteString
  | .dquoteString, .numeric => .squoteString
  | .dquoteString, .dot => .squoteString
  | .dquoteString, .doublequote => .squoteString
  | .dquoteString, .singlequote => .none_
  | .dquoteString, .sign => .squoteString
  | .dquoteString, .colon => .squoteString
  | .dquoteString, .backslash => .squoteString
  | .dquoteString, .idchar => .squoteString
  | .dquoteString, .other => .squoteString
  -- row 8: TOKEN_STATE_ID
  | .id, .eof => .error
  | .id, .whitespace => .none_
  | .id, .alphabet => .id
  | .id, .numeric => .id
  | .id, .dot => .error
  | .id, .doublequote => .error
  | .id, .singlequote => .error
  | .id, .sign => .error
  | .id, .colon => .error
  | .id, .backslash => .error
  | .id, .idchar => .id
  | .id, .other => .error
  -- row 9: TOKEN_STATE_DEBUG
  | .debug, .eof => .error
  | .debug, .whitespace => .none_
  | .debug, .alphabet => .debug
  | .debug, .numeric => .debug
  | .debug, .dot => .error
  | .debug, .doublequote => .error
  | .debug, .singlequote => .error
  | .debug, .sign => .error
  | .debug, .colon => .error
  | .debug, .backslash => .error
  | .debug, .idchar => .error
  | .debug, .other => .error
  -- row 10: TOKEN_STATE_END, absent from the initializer, zero-filled (= ERROR)
  | .end_, _ => .error

/-- Function `get_input` from the source: classify the `int` value of a character.
The if/switch cascade is transcribed in the source's order (`EOF` = -1 from stdio). -/
def get_input (input : Int) : TokenInput :=
  if input = -1 then .eof
  else if input = 32 ∨ input = 13 ∨ input = 10 ∨ input = 9 then .whitespace
  else if input = 46 then .dot
  else if input = 0 then .eof
  else if input = 58 then .colon
  else if input = 92 then .backslash
  else if input = 95 then .alphabet
  else if input = 43 ∨ input = 45 then .sign
  else if input = 34 then .doublequote
  else if input = 39 then .singlequote
  else if 48 ≤ input ∧ input ≤ 57 then .numeric
  else if (97 ≤ input ∧ input ≤ 122) ∨ (65 ≤ input ∧ input ≤ 90) then .alphabet
  else if (33 ≤ input ∧ input ≤ 126) ∨ 161 ≤ input then .idchar
  else .other

/-- Struct `Token`: a type tag plus the `TokenData` union.  Only the integer member
of the union is ever mentioned by the code paths the claims concern, so the union is
modelled by its `int64_t` member. -/
structure Token where
  type : TokenType
  data : Int
  deriving DecidableEq, Repr

/-- Struct `TokenError` (the failure diagnostic). -/
structure TokenError where
  curr_offset : Nat
  line_pos : Nat
  col_pos : Nat
  curr_guess : TokenState
  curr_input : TokenInput
  curr_input_val : Int
  deriving DecidableEq, Repr

/-- Struct `TokenResult`.  `buffer` is the `CharBuffer` text arena (a `std::vector`
of chars, modelled as a list of their integer values); `tokens` is the token vector. -/
structure TokenResult where
  characters_processed : Nat
  lines_processed : Nat
  error : TokenError
  buffer : List Int
  tokens : List Token
  deriving DecidableEq, Repr

/-- A concrete initial `TokenError`.  The C++ default constructor of `TokenResult`
leaves `error` uninitialized, so its initial contents are indeterminate; theorems
that inspect error fields therefore quantify over the initial result rather than
relying on this value. -/
def initError : TokenError :=
  { curr_offset := 0, line_pos := 0, col_pos := 0,
    curr_guess := .none_, curr_input := .eof, curr_input_val := 0 }

/-- A freshly constructed `TokenResult` (`TokenResult()` zeroes the two counters;
the vectors start empty). -/
def freshResult : TokenResult :=
  { characters_processed := 0, lines_processed := 0,
    error := initError, buffer := [], tokens := [] }

/-- Increment applied to `result.lines_processed` by the line-ending if-chain of
`tokenize` for one character `c`, given the current `line_ending_check` flag. -/
def lineDelta (lec : Bool) (c : Int) : Nat :=
  if c = 10 then 1
  else if c = 13 then (if lec then 1 else 0)
  else if lec then 1
  else 0

/-- New value of the `line_ending_check` flag after one character (the source never
clears the flag in the consecutive-`\r` branch). -/
def lineFlag (lec : Bool) (c : Int) : Bool :=
  if c = 10 then false
  else if c = 13 then true
  else false

/-- New value of the local `col_pos` after one character: reset to zero on each
counted line ending, unchanged on the first `\r` of a run, incremented otherwise. -/
def colUpdate (lec : Bool) (col : Nat) (c : Int) : Nat :=
  if c = 10 then 0
  else if c = 13 then (if lec then 0 else col)
  else if lec then 0
  else col + 1

/-- Function `build_int` from the source.  Returns `none` for the `-1` (overflow
guard) path, otherwise the accumulated value.  The C `int64_t` multiply/add can
overflow (undefined behaviour); it is modelled as two's-complement wraparound via
`wrap64`.  (`tokenize` never calls this function.) -/
def wrap64 (x : Int) : Int :=
  ((x + 2 ^ 63) % 2 ^ 64) - 2 ^ 63

def build_int (i : Int) (c : Int) : Option Int :=
  if 2 ^ 63 - 1 - 9 ≤ i then none
  else some (wrap64 (wrap64 (i * 10) + (c - 48)))

/-- The `for` loop of `tokenize`, as structural recursion on the remaining input.
The threaded arguments are exactly the call-local variables of the C function:
`curr_state` (never reassigned by the source loop, hence passed along unchanged),
`line_ending_check`, `col_pos`, and `sign`.  Per character the loop classifies,
looks up the next state, bumps `characters_processed`, runs the line-ending
if-chain, and then dispatches on the next state: `TOKEN_STATE_ERROR` fills the
diagnostic (all fields except `curr_offset`, which the source never writes) and
returns 1; `TOKEN_STATE_END` returns 1; `TOKEN_STATE_SIGN` sets `sign = true`
and continues; every other case (`NONE`, `INT`, `DOT`, `REAL`, both string states,
`ID`, `DEBUG`) has an empty body in the source and simply continues.  The C
`default:` branch (return -1) is unreachable because the matrix only contains
valid enum values, which the total `TokenState` type reflects. -/
def tokenizeLoop (curr_state : TokenState) (lec : Bool) (col_pos : Nat) (sg : Bool) :
    List Int → TokenResult → Int × TokenResult
  | [], result => (0, result)
  | c :: rest, result =>
    let curr_input := get_input c
    let next_state := states curr_state curr_input
    let result1 : TokenResult :=
      { result with
        characters_processed := result.characters_processed + 1,
        lines_processed := result.lines_processed + lineDelta lec c }
    let col1 := colUpdate lec col_pos c
    let lec1 := lineFlag lec c
    match next_state with
    | .error =>
        (1, { result1 with
              error :=
                { result1.error with
                  line_pos := result1.lines_processed,
                  col_pos := col1,
                  curr_guess := curr_state,
                  curr_input := curr_input,
                  curr_input_val := c } })
    | .end_ => (1, result1)
    | .sign => tokenizeLoop curr_state lec1 col1 true rest result1
    | _ => tokenizeLoop curr_state lec1 col1 sg rest result1

/-- Function `tokenize` from the source.  `e` is the `end` flag (declared but never
read by the source).  The function zeroes the two counters of the passed result and
runs the loop from `TOKEN_STATE_NONE` with all local flags cleared. -/
def tokenize (input : List Int) (e : Bool) (result : TokenResult) : Int × TokenResult :=
  tokenizeLoop .none_ false 0 false input
    { result with characters_processed := 0, lines_processed := 0 }

/-- True on the two states at which the driver loop returns 1 (`TOKEN_STATE_ERROR`
and `TOKEN_STATE_END`). -/
def isTerminal : TokenState → Bool
  | .error => true
  | .end_ => true
  | _ => false

/-- Contribution of a pending carriage return given the rest of the input: a `\r`
that is the last character is never counted (the count fires only when a following
character arrives), a `\r` directly followed by `\n` contributes nothing (the `\n`
itself counts the pair exactly once), and any other follower makes it count one. -/
def pendingCR : List Int → Nat
  | [] => 0
  | c :: _ => if c = 10 then 0 else 1

/-- Line count of an input per the specified counting rule: one per `\n`, one per
`\r` not immediately followed by `\n` (counted only when a following character
arrives), and exactly one per `\r\n` pair. -/
def lineCount : List Int → Nat
  | [] => 0
  | c :: rest =>
      (if c = 10 then 1 else if c = 13 then pendingCR rest else 0) + lineCount rest

/-- Cumulated line increments of the source's line-ending sub-automaton, starting
from a given `line_ending_check` flag. -/
def lineSteps (lec : Bool) : List Int → Nat
  | [] => 0
  | c :: rest => lineDelta lec c + lineSteps (lineFlag lec c) rest

/-- Byte values of the complete input `"1 2 + print_stack_top"`. -/
def c1Input : List Int :=
  [49, 32, 50, 32, 43, 32, 112, 114, 105, 110, 116, 95,
   115, 116, 97, 99, 107, 95, 116, 111, 112]

/-- One terminal step of the loop: whenever the looked-up next state is
`TOKEN_STATE_ERROR` or `TOKEN_STATE_END`, the call returns 1 after bumping the two
counters, leaving tokens, buffer and the error's `curr_offset` untouched. -/
theorem tokenizeLoop_term (cs : TokenState) (lec : Bool) (col : Nat) (sg : Bool)
    (c : Int) (rest : List Int) (res : TokenResult)
    (h : isTerminal (states cs (get_input c)) = true) :
    (tokenizeLoop cs lec col sg (c :: rest) res).1 = 1 ∧
    ((tokenizeLoop cs lec col sg (c :: rest) res).2).characters_processed
      = res.characters_processed + 1 ∧
    ((tokenizeLoop cs lec col sg (c :: rest) res).2).lines_processed
      = res.lines_processed + lineDelta lec c ∧
    ((tokenizeLoop cs lec col sg (c :: rest) res).2).tokens = res.tokens ∧
    ((tokenizeLoop cs lec col sg (c :: rest) res).2).buffer = res.buffer ∧
    ((tokenizeLoop cs lec col sg (c :: rest) res).2).error.curr_offset
      = res.error.curr_offset := by
  cases hs : states cs (get_input c) <;> simp_all [tokenizeLoop, isTerminal]

/-- One non-terminal step of the loop: the call recurses on the tail with updated
line-tracking locals and bumped counters (the `sign` local may have been set). -/
theorem tokenizeLoop_cont (cs : TokenState) (lec : Bool) (col : Nat) (sg : Bool)
    (c : Int) (rest : List Int) (res : TokenResult)
    (h : isTerminal (states cs (get_input c)) = false) :
    ∃ sg2 : Bool, tokenizeLoop cs lec col sg (c :: rest) res =
      tokenizeLoop cs (lineFlag lec c) (colUpdate lec col c) sg2 rest
        { res with
          characters_processed := res.characters_processed + 1,
          lines_processed := res.lines_processed + lineDelta lec c } := by
  cases hs : states cs (get_input c)
  case error => simp [isTerminal, hs] at h
  case end_ => simp [isTerminal, hs] at h
  case sign => exact ⟨true, by simp [tokenizeLoop, hs]⟩
  all_goals exact ⟨sg, by simp [tokenizeLoop, hs]⟩

/-- The loop never modifies `tokens`, `buffer`, or the error's `curr_offset`. -/
theorem tokenizeLoop_frame (input : List Int) : ∀ (cs : TokenState) (lec : Bool)
    (col : Nat) (sg : Bool) (res : TokenResult),
    ((tokenizeLoop cs lec col sg input res).2).tokens = res.tokens ∧
    ((tokenizeLoop cs lec col sg input res).2).buffer = res.buffer ∧
    ((tokenizeLoop cs lec col sg input res).2).error.curr_offset
      = res.error.curr_offset := by
  induction input with
  | nil => intro cs lec col sg res; exact ⟨rfl, rfl, rfl⟩
  | cons c rest ih =>
      intro cs lec col sg res
      by_cases h : isTerminal (states cs (get_input c)) = true
      · obtain ⟨-, -, -, ht, hb, ho⟩ := tokenizeLoop_term cs lec col sg c rest res h
        exact ⟨ht, hb, ho⟩
      · obtain ⟨sg2, heq⟩ :=
          tokenizeLoop_cont cs lec col sg c rest res (by simpa using h)
        rw [heq]
        exact ih cs (lineFlag lec c) (colUpdate lec col c) sg2 _

/-- Counter accounting of the loop: some number `n` of characters is consumed,
`characters_processed` grows by exactly `n`, and `lines_processed` grows by the
line-ending sub-automaton's count over those `n` characters. -/
theorem tokenizeLoop_run (input : List Int) : ∀ (cs : TokenState) (lec : Bool)
    (col : Nat) (sg : Bool) (res : TokenResult),
    ∃ n : Nat,
      ((tokenizeLoop cs lec col sg input res).2).characters_processed
        = res.characters_processed + n ∧
      ((tokenizeLoop cs lec col sg input res).2).lines_processed
        = res.lines_processed + lineSteps lec (List.take n input) := by
  induction input with
  | nil =>
      intro cs lec col sg res
      exact ⟨0, rfl, by simp [tokenizeLoop, lineSteps]⟩
  | cons c rest ih =>
      intro cs lec col sg res
      by_cases h : isTerminal (states cs (get_input c)) = true
      · obtain ⟨-, hc, hl, -, -, -⟩ := tokenizeLoop_term cs lec col sg c rest res h
        refine ⟨1, ?_, ?_⟩
        · rw [hc]
        · rw [hl]; simp [lineSteps]
      · obtain ⟨sg2, heq⟩ :=
          tokenizeLoop_cont cs lec col sg c rest res (by simpa using h)
        rw [heq]
        obtain ⟨n, h1, h2⟩ := ih cs (lineFlag lec c) (colUpdate lec col c) sg2
          { res with
            characters_processed := res.characters_processed + 1,
            lines_processed := res.lines_processed + lineDelta lec c }
        refine ⟨n + 1, ?_, ?_⟩
        · rw [h1]
          show res.characters_processed + 1 + n = res.characters_processed + (n + 1)
          omega
        · rw [h2, List.take_succ_cons]
          show res.lines_processed + lineDelta lec c
                + lineSteps (lineFlag lec c) (List.take n rest)
              = res.lines_processed + lineSteps lec (c :: List.take n rest)
          simp [lineSteps]
          omega

/-- Status accounting of the loop: the integer returned is 1 exactly when some
character of the input is classified so that the (never-changing) current state
maps it to `TOKEN_STATE_ERROR` or `TOKEN_STATE_END`, and 0 otherwise. -/
theorem tokenizeLoop_status (input : List Int) : ∀ (cs : TokenState) (lec : Bool)
    (col : Nat) (sg : Bool) (res : TokenResult),
    (tokenizeLoop cs lec col sg input res).1 =
      if input.any (fun c => isTerminal (states cs (get_input c))) then 1 else 0 := by
  induction input with
  | nil => intro cs lec col sg res; rfl
  | cons c rest ih =>
      intro cs lec col sg res
      by_cases h : isTerminal (states cs (get_input c)) = true
      · obtain ⟨h1, -⟩ := tokenizeLoop_term cs lec col sg c rest res h
        rw [h1]
        simp [List.any_cons, h]
      · obtain ⟨sg2, heq⟩ :=
          tokenizeLoop_cont cs lec col sg c rest res (by simpa using h)
        rw [heq, ih]
        simp [List.any_cons, (by simpa using h : isTerminal (states cs (get_input c)) = false)]

/-- Unfolding of `lineSteps` on a line feed. -/
theorem lineSteps_ten (lec : Bool) (rest : List Int) :
    lineSteps lec (10 :: rest) = 1 + lineSteps false rest := by
  cases lec <;> norm_num [lineSteps, lineDelta, lineFlag]

/-- Unfolding of `lineSteps` on a carriage return with the flag armed. -/
theorem lineSteps_t13 (rest : List Int) :
    lineSteps true (13 :: rest) = 1 + lineSteps true rest := by
  norm_num [lineSteps, lineDelta, lineFlag]

/-- Unfolding of `lineSteps` on a carriage return with the flag clear. -/
theorem lineSteps_f13 (rest : List Int) :
    lineSteps false (13 :: rest) = lineSteps true rest := by
  norm_num [lineSteps, lineDelta, lineFlag]

/-- Unfolding of `lineSteps` on an ordinary character with the flag armed. -/
theorem lineSteps_t_other (c : Int) (rest : List Int) (h10 : c ≠ 10) (h13 : c ≠ 13) :
    lineSteps true (c :: rest) = 1 + lineSteps false rest := by
  simp [lineSteps, lineDelta, lineFlag, h10, h13]

/-- Unfolding of `lineSteps` on an ordinary character with the flag clear. -/
theorem lineSteps_f_other (c : Int) (rest : List Int) (h10 : c ≠ 10) (h13 : c ≠ 13) :
    lineSteps false (c :: rest) = lineSteps false rest := by
  simp [lineSteps, lineDelta, lineFlag, h10, h13]

/-- Unfolding of `lineCount` on a line feed. -/
theorem lineCount_ten (rest : List Int) :
    lineCount (10 :: rest) = 1 + lineCount rest := by
  norm_num [lineCount]

/-- Unfolding of `lineCount` on a carriage return. -/
theorem lineCount_13 (rest : List Int) :
    lineCount (13 :: rest) = pendingCR rest + lineCount rest := by
  norm_num [lineCount]

/-- Unfolding of `lineCount` on an ordinary character. -/
theorem lineCount_other (c : Int) (rest : List Int) (h10 : c ≠ 10) (h13 : c ≠ 13) :
    lineCount (c :: rest) = lineCount rest := by
  simp [lineCount, h10, h13]

/-- Starting the line sub-automaton with the pending-CR flag armed adds exactly the
pending carriage return's contribution. -/
theorem lineSteps_true (s : List Int) :
    lineSteps true s = lineSteps false s + pendingCR s := by
  cases s with
  | nil => rfl
  | cons c rest =>
      by_cases h10 : c = 10
      · subst h10
        rw [lineSteps_ten, lineSteps_ten]
        simp [pendingCR]
      · by_cases h13 : c = 13
        · subst h13
          rw [lineSteps_t13, lineSteps_f13]
          have hp : pendingCR (13 :: rest) = 1 := by norm_num [pendingCR]
          rw [hp]
          omega
        · rw [lineSteps_t_other c rest h10 h13, lineSteps_f_other c rest h10 h13]
          have hp : pendingCR (c :: rest) = 1 := by simp [pendingCR, h10]
          rw [hp]
          omega

/-- The source's line sub-automaton, started with a clear flag, computes exactly the
specified line count. -/
theorem lineSteps_false_eq (s : List Int) : lineSteps false s = lineCount s := by
  induction s with
  | nil => rfl
  | cons c rest ih =>
      by_cases h10 : c = 10
      · subst h10
        rw [lineSteps_ten, lineCount_ten, ih]
      · by_cases h13 : c = 13
        · subst h13
          rw [lineSteps_f13, lineCount_13, lineSteps_true, ih]
          omega
        · rw [lineSteps_f_other c rest h10 h13, lineCount_other c rest h10 h13, ih]

/-- Claim C1: the spec says tokenizing the complete input `"1 2 + print_stack_top"`
in one final-chunk call on a fresh result returns Done with exactly the four tokens
Integer(1), Integer(2), Identifier(+), Identifier(print_stack_top).  The code does
neither: on the 21 raw characters it returns 0 (need-more-input) and appends no
token at all, and even with an explicit `\0` end-of-input marker appended it
returns 1 but still appends no token (the emit branches of the driver are empty
and the current state is never advanced). -/
theorem c1_example_input_produces_no_tokens :
    (tokenize c1Input true freshResult).1 = 0 ∧
    ((tokenize c1Input true freshResult).2).tokens = [] ∧
    ((tokenize c1Input true freshResult).2).characters_processed = 21 ∧
    (tokenize (c1Input ++ [0]) true freshResult).1 = 1 ∧
    ((tokenize (c1Input ++ [0]) true freshResult).2).tokens = [] := by
  refine ⟨?_, ?_, ?_, ?_, ?_⟩ <;> decide

/-- Claim C2: no call to `tokenize` ever appends a token to `result.tokens` or a
character to the text arena `result.buffer`, for any input buffer, end flag and
initial result. -/
theorem c2_tokenize_frame (input : List Int) (e : Bool) (res : TokenResult) :
    ((tokenize input e res).2).tokens = res.tokens ∧
    ((tokenize input e res).2).buffer = res.buffer := by
  obtain ⟨ht, hb, -⟩ := tokenizeLoop_frame input .none_ false 0 false
    { res with characters_processed := 0, lines_processed := 0 }
  exact ⟨ht, hb⟩

/-- Claim C3 (refuted): feeding `"12"` as the two chunks `"1"` (not final) and
`"2"` (final) through the same result does not reproduce the single-call totals:
the single call reports `characters_processed` = 2, while after the chunked pair
the count is 1, because every call resets the counters and keeps the lexical
state, pending sign flag and line-ending flag in call-local variables. -/
theorem c3_chunked_totals_differ :
    ((tokenize [49, 50] true freshResult).2).characters_processed = 2 ∧
    (tokenize [49, 50] true freshResult).1 = 0 ∧
    ((tokenize [50] true ((tokenize [49] false freshResult).2)).2).characters_processed
      = 1 ∧
    (tokenize [50] true ((tokenize [49] false freshResult).2)).1 = 0 := by
  refine ⟨?_, ?_, ?_, ?_⟩ <;> decide

/-- Claim C4: the status returned by `tokenize` is 1 both when a transition into
`TOKEN_STATE_ERROR` occurs and when `TOKEN_STATE_END` is reached, so the return
value alone does not distinguish the two; exhausting the buffer with neither
returns 0, and the result does not depend on the end flag at all (the source
never reads it). -/
theorem c4_return_status_conflates_done_and_failed :
    (∀ (input : List Int) (e1 e2 : Bool) (res : TokenResult),
        tokenize input e1 res = tokenize input e2 res) ∧
    (∀ (input : List Int) (e : Bool) (res : TokenResult),
        (tokenize input e res).1 =
          if input.any (fun c => isTerminal (states TokenState.none_ (get_input c)))
          then 1 else 0) ∧
    states TokenState.none_ (get_input 92) = TokenState.error ∧
    states TokenState.none_ (get_input 0) = TokenState.end_ ∧
    (tokenize [92] true freshResult).1 = 1 ∧
    (tokenize [0] true freshResult).1 = 1 ∧
    (tokenize [49] true freshResult).1 = 0 ∧
    (tokenize [49] false freshResult).1 = 0 := by
  refine ⟨fun input e1 e2 res => rfl,
    fun input e res => tokenizeLoop_status input .none_ false 0 false _,
    by decide, by decide, by decide, by decide, by decide, by decide⟩

/-- Claim C5 (refuted): on a lexical failure the code populates only five of the
six diagnostic fields; the byte-offset field `curr_offset` is never written by any
call (first conjunct), even though the failure on the bad character 0x01 does
return 1 and fills the state, input-class, character, line and column fields
(second conjunct). -/
theorem c5_diagnostic_offset_never_written :
    (∀ (input : List Int) (e : Bool) (res : TokenResult),
        ((tokenize input e res).2).error.curr_offset = res.error.curr_offset) ∧
    (∀ (res : TokenResult),
        (tokenize [1] true res).1 = 1 ∧
        ((tokenize [1] true res).2).error.curr_guess = TokenState.none_ ∧
        ((tokenize [1] true res).2).error.curr_input = TokenInput.other ∧
        ((tokenize [1] true res).2).error.curr_input_val = 1 ∧
        ((tokenize [1] true res).2).error.line_pos = 0 ∧
        ((tokenize [1] true res).2).error.col_pos = 1) := by
  constructor
  · intro input e res
    obtain ⟨-, -, ho⟩ := tokenizeLoop_frame input .none_ false 0 false
      { res with characters_processed := 0, lines_processed := 0 }
    exact ho
  · intro res
    exact ⟨rfl, rfl, rfl, rfl, rfl, rfl⟩

/-- Claim C6 (refuted): the transition matrix does not send state `TOKEN_STATE_SIGN`
to `TOKEN_STATE_ERROR` on EndOfInput or Whitespace — it sends it to
`TOKEN_STATE_END` and `TOKEN_STATE_NONE` respectively — and the actual call on the
input `"+"` returns 0 with the error record untouched, not a failure with
`curr_guess` = Sign. -/
theorem c6_lone_sign_not_rejected :
    states TokenState.sign TokenInput.eof = TokenState.end_ ∧
    states TokenState.sign TokenInput.whitespace = TokenState.none_ ∧
    (∀ (res : TokenResult),
        (tokenize [43] true res).1 = 0 ∧
        ((tokenize [43] true res).2).error = res.error) := by
  exact ⟨rfl, rfl, fun res => ⟨rfl, rfl⟩⟩

/-- Claim C7 counterexample: the cell (Integer, Dot) of the transition matrix is
`TOKEN_STATE_DOT` (the intermediate dot-seen state), not `TOKEN_STATE_REAL`, and a
digit run followed by a dot and then whitespace or end of input runs into
`TOKEN_STATE_ERROR` from the dot-seen state rather than emitting a Real token. -/
theorem c7_integer_dot_counterexample :
    states TokenState.int TokenInput.dot ≠ TokenState.real ∧
    states TokenState.int TokenInput.dot = TokenState.dot ∧
    states TokenState.dot TokenInput.whitespace = TokenState.error ∧
    states TokenState.dot TokenInput.eof = TokenState.error := by
  refine ⟨?_, ?_, ?_, ?_⟩ <;> decide

/-- Claim C7 as amended: from state Integer, input class Dot transitions to the
intermediate DotSeen state (consuming the dot); from DotSeen only Digit continues
(to Real) and every other input class — including Whitespace and EndOfInput — is an
Error; from Real a further Dot is an Error, so a numeric token accepts at most one
dot, and a digit run followed by a dot and then whitespace or end of input is a
lexical error per the table rather than a Real token. -/
theorem c7_integer_dot_amended :
    states TokenState.int TokenInput.dot = TokenState.dot ∧
    states TokenState.dot TokenInput.numeric = TokenState.real ∧
    states TokenState.dot TokenInput.eof = TokenState.error ∧
    states TokenState.dot TokenInput.whitespace = TokenState.error ∧
    states TokenState.dot TokenInput.alphabet = TokenState.error ∧
    states TokenState.dot TokenInput.dot = TokenState.error ∧
    states TokenState.dot TokenInput.doublequote = TokenState.error ∧
    states TokenState.dot TokenInput.singlequote = TokenState.error ∧
    states TokenState.dot TokenInput.sign = TokenState.error ∧
    states TokenState.dot TokenInput.colon = TokenState.error ∧
    states TokenState.dot TokenInput.backslash = TokenState.error ∧
    states TokenState.dot TokenInput.idchar = TokenState.error ∧
    states TokenState.dot TokenInput.other = TokenState.error ∧
    states TokenState.real TokenInput.dot = TokenState.error := by
  decide

/-- Claim C8 (refuted): the transition matrix maps both (Identifier, EndOfInput)
and (DebugCommand, EndOfInput) to `TOKEN_STATE_ERROR`, not to `TOKEN_STATE_END`,
so an identifier or debug command immediately before end of input is treated as an
error cell by the table (and no token is ever emitted by the driver anyway). -/
theorem c8_identifier_eof_is_error :
    states TokenState.id TokenInput.eof = TokenState.error ∧
    states TokenState.debug TokenInput.eof = TokenState.error ∧
    TokenState.error ≠ TokenState.end_ := by
  decide

/-- Claim C9: over the consumed prefix of any input, `lines_processed` equals the
specified count — one per `\n`, one per `\r` not immediately followed by `\n`
(counted only when the following character arrives), exactly one per `\r\n` pair —
and every step that counts a line ending resets the column counter to zero. -/
theorem c9_line_counting :
    (∀ (input : List Int) (e : Bool) (res : TokenResult),
        ((tokenize input e res).2).lines_processed =
          lineCount (List.take ((tokenize input e res).2.characters_processed) input)) ∧
    (∀ (lec : Bool) (col : Nat) (c : Int),
        lineDelta lec c = 0 ∨ colUpdate lec col c = 0) ∧
    lineCount [13, 10] = 1 ∧
    lineCount [13, 13, 10] = 2 ∧
    lineCount [10, 10] = 2 ∧
    lineCount [13, 65] = 1 ∧
    lineCount [13] = 0 := by
  refine ⟨?_, ?_, by decide, by decide, by decide, by decide, by decide⟩
  · intro input e res
    obtain ⟨n, h1, h2⟩ := tokenizeLoop_run input .none_ false 0 false
      { res with characters_processed := 0, lines_processed := 0 }
    have hn : ((tokenize input e res).2).characters_processed = n := by
      simpa [tokenize] using h1
    have hl : ((tokenize input e res).2).lines_processed
        = lineSteps false (List.take n input) := by
      simpa [tokenize] using h2
    rw [hn, hl, lineSteps_false_eq]
  · intro lec col c
    unfold lineDelta colUpdate
    split_ifs <;> simp

/-- Claim C10 (refuted): an integer literal whose value exceeds the positive
64-bit signed range — twenty `9` characters — is tokenized without any failure:
the call returns 0 with the error record and token list untouched, because the
driver never invokes `build_int`; the overflow guard inside `build_int` (which
returns the error marker once the accumulator reaches `INT64_MAX - 9`) is dead
code on every path of `tokenize`. -/
theorem c10_overflow_never_detected :
    (∀ (res : TokenResult),
        (tokenize (List.replicate 20 57) true res).1 = 0 ∧
        ((tokenize (List.replicate 20 57) true res).2).error = res.error ∧
        ((tokenize (List.replicate 20 57) true res).2).tokens = res.tokens) ∧
    build_int (2 ^ 63 - 10) 57 = none ∧
    build_int 500 57 = some 5009 := by
  refine ⟨?_, by decide, ?_⟩
  · intro res
    exact ⟨rfl, rfl, rfl⟩
  · norm_num [build_int, wrap64]

end BlindForth
